import Mathlib

/-!
Verification of the English_Center front-end/admin layer against its
specification.  Each claim about the repository is settled by a theorem over a
shallow embedding of the corresponding source file:

* `Entrypoint` embeds `entrypoint.sh` (Postgres readiness wait loop).
* `Base0` embeds the stable `admin/js/base.js` variant (sidebar collapse,
  mobile sidebar, theme toggle, localStorage writes).
* `Base1` embeds the `DOMContentLoaded` variant of `admin/js/base.js`
  (mobile sidebar state machine, theme toggle, footer status refresh).
* `StatusJS` embeds the footer status refresh system of `admin/js/base.js`.
* `Debounce` embeds the `debounce` utility shared by `base.js`/`overview.js`.
* `Sched` embeds `scheduleContainerRefresh` / the animation-frame queue of
  `admin/js/overview.js`.
* `Overview` embeds the chart hydration layer of `admin/js/overview.js`
  (`parseJSON`, `destroyChart`, `hydrateChart`, `refreshChartContainer`).
-/

namespace EnglishCenter

/-- Pointwise update of a finite map represented as a function into `Option`.
Models `Map.set` (with `some v`) and `Map.delete` (with `none`). -/
def updMap {κ β : Type} [DecidableEq κ] (f : κ → Option β) (k : κ) (v : Option β) :
    κ → Option β :=
  fun k' => if k' = k then v else f k'

namespace Entrypoint

/-!
Embedding of `entrypoint.sh`:

```
: "${POSTGRES_HOST:=db}"
: "${POSTGRES_PORT:=5432}"
: "${POSTGRES_USER:=postgres}"
if command -v pg_isready >/dev/null 2>&1; then
  until pg_isready -h "$POSTGRES_HOST" -p "$POSTGRES_PORT" -U "$POSTGRES_USER"; do
    >&2 echo "Postgres is unavailable - sleeping"
    sleep 1
  done
fi
>&2 echo "Postgres is up - continuing"
exec "$@"
```

The script is modelled as a trace of observable events.  The environment
supplies the three variables (`none` = unset), whether `pg_isready` is on the
`PATH`, the outcome of the k-th `pg_isready` invocation, and the command
vector.  The unbounded `until` loop is run with explicit fuel: `run e fuel`
returns the trace of the first `fuel` readiness attempts of the script together
with a flag telling whether the script got past the loop.
-/

/-- One observable action of `entrypoint.sh`. -/
inductive Event where
  | check (host port user : String)
  | sleepOne
  | execCmd (cmd : List String)
deriving DecidableEq, Repr

/-- Bash `${VAR:=default}`: the default is substituted when the variable is
unset or empty. -/
def defaultIfUnsetOrEmpty (v : Option String) (d : String) : String :=
  match v with
  | none => d
  | some s => if s = "" then d else s

/-- The environment `entrypoint.sh` runs in. -/
structure Env where
  postgresHost : Option String
  postgresPort : Option String
  postgresUser : Option String
  pgIsReadyOnPath : Bool
  ready : Nat → Bool
  cmd : List String

/-- `$POSTGRES_HOST` after the `:=` default substitution. -/
def host (e : Env) : String := defaultIfUnsetOrEmpty e.postgresHost "db"

/-- `$POSTGRES_PORT` after the `:=` default substitution. -/
def port (e : Env) : String := defaultIfUnsetOrEmpty e.postgresPort "5432"

/-- `$POSTGRES_USER` after the `:=` default substitution. -/
def user (e : Env) : String := defaultIfUnsetOrEmpty e.postgresUser "postgres"

/-- The `pg_isready` invocation event with the substituted arguments. -/
def checkEvent (e : Env) : Event := .check (host e) (port e) (user e)

/-- The `until pg_isready; do echo; sleep 1; done` loop, fuel-bounded.
Returns the emitted trace and whether the loop terminated (a readiness check
succeeded) within `fuel` attempts, starting at attempt index `k`. -/
def waitLoop (e : Env) : Nat → Nat → List Event × Bool
  | 0, _ => ([], false)
  | fuel + 1, k =>
    if e.ready k then ([checkEvent e], true)
    else
      let rest := waitLoop e fuel (k + 1)
      (checkEvent e :: .sleepOne :: rest.1, rest.2)

/-- The whole script: wait (only when `pg_isready` is on the `PATH`), then
`exec "$@"`.  The second component is `true` when the script reached the
`exec`. -/
def run (e : Env) (fuel : Nat) : List Event × Bool :=
  if e.pgIsReadyOnPath then
    let w := waitLoop e fuel 0
    if w.2 then (w.1 ++ [.execCmd e.cmd], true) else (w.1, false)
  else ([.execCmd e.cmd], true)

/-- A concrete environment in which `pg_isready` is not on the `PATH` and the
database is never ready. -/
def noPgEnv : Env :=
  { postgresHost := none
    postgresPort := none
    postgresUser := none
    pgIsReadyOnPath := false
    ready := fun _ => false
    cmd := ["gunicorn"] }

/-- A concrete environment in which `pg_isready` is on the `PATH` and the
database becomes ready at the third attempt. -/
def readyAt2Env : Env :=
  { postgresHost := some "postgres-main"
    postgresPort := none
    postgresUser := some ""
    pgIsReadyOnPath := true
    ready := fun k => decide (2 ≤ k)
    cmd := ["gunicorn", "english_center.wsgi:application"] }

end Entrypoint

namespace Base0

/-!
Embedding of the stable `admin/js/base.js` variant: the sidebar
collapse toggle (`setCollapsed` and its click handler), the mobile sidebar
toggle (`openMobileSidebar`/`closeMobileSidebar`/`toggleMobileSidebar`) and
the theme toggle (`applyTheme` and its click handler).  `localStorage` is
modelled as a map from keys to optional values.
-/

/-- `localStorage.setItem`. -/
def setItem (st : String → Option String) (k v : String) : String → Option String :=
  fun k' => if k' = k then some v else st k'

/-- The page state this script reads and writes.  `layoutExists` /
`sidebarExists` model the null-guards on `qs(".layout")` / `qs("#sidebar")`;
`themeToggleExists` / `themeIconExists` model the guards inside `applyTheme`. -/
structure St where
  layoutExists : Bool
  sidebarExists : Bool
  collapsed : Bool
  mobileOpen : Bool
  bodyOverflow : String
  themeAttr : Option String
  themeToggleExists : Bool
  themeAriaPressed : Option String
  themeIconExists : Bool
  themeIconClass : Option String
  store : String → Option String

/-- `setCollapsed(val)`: toggles the collapsed class on `.layout` and persists
the state under the `localStorage` key `admin_sidebar_collapsed`. -/
def setCollapsed (val : Bool) (s : St) : St :=
  if s.layoutExists then
    { s with
      collapsed := val
      store := setItem s.store "admin_sidebar_collapsed" (if val then "1" else "0") }
  else s

/-- The `#sidebarCollapseToggle` click handler:
`next = !(layout && layout.classList.contains(COLLAPSED_CLASS)); setCollapsed(next)`. -/
def collapseToggleClick (s : St) : St :=
  setCollapsed (!(s.layoutExists && s.collapsed)) s

/-- `openMobileSidebar`. -/
def openMobileSidebar (s : St) : St :=
  if s.sidebarExists then { s with mobileOpen := true, bodyOverflow := "hidden" } else s

/-- `closeMobileSidebar`. -/
def closeMobileSidebar (s : St) : St :=
  if s.sidebarExists then { s with mobileOpen := false, bodyOverflow := "" } else s

/-- `toggleMobileSidebar`. -/
def toggleMobileSidebar (s : St) : St :=
  if s.sidebarExists then
    if s.mobileOpen then closeMobileSidebar s else openMobileSidebar s
  else s

/-- `applyTheme(theme)`: sets `data-theme` and, when the toggle (and its icon)
exist, `aria-pressed` and the Font Awesome icon class. -/
def applyTheme (theme : String) (s : St) : St :=
  let s := { s with themeAttr := some theme }
  if s.themeToggleExists then
    let s := { s with themeAriaPressed := some (if theme = "dark" then "true" else "false") }
    if s.themeIconExists then
      { s with
        themeIconClass := some (if theme = "dark" then "fa-solid fa-sun" else "fa-solid fa-moon") }
    else s
  else s

/-- The `#themeToggle` click handler: reads the current `data-theme`
(defaulting to `light`), flips it, persists it under the `localStorage` key
`theme` and applies it. -/
def themeToggleClick (s : St) : St :=
  let cur := s.themeAttr.getD "light"
  let next := if cur = "dark" then "light" else "dark"
  applyTheme next { s with store := setItem s.store "theme" next }

end Base0

namespace Base1

/-!
Embedding of the `DOMContentLoaded` variant of `admin/js/base.js`: the mobile
sidebar state machine (`setMobileSidebarState` / `toggleSidebar`) and its
theme toggle click handler.  These functions are installed only when
`#sidebar` and `#sidebarToggle` exist, so the embedding carries no null-guard.
-/

/-- The page state of this variant. -/
structure St where
  mobileOpen : Bool
  dataMobileOpen : String
  ariaExpanded : String
  bodyOverflow : String
  themeAttr : Option String
  themeAriaPressed : String
  themeIconExists : Bool
  themeIconClass : Option String
  store : String → Option String

/-- `setMobileSidebarState(isOpen)`. -/
def setMobileSidebarState (isOpen : Bool) (s : St) : St :=
  { s with
    mobileOpen := isOpen
    dataMobileOpen := if isOpen then "true" else "false"
    ariaExpanded := if isOpen then "true" else "false"
    bodyOverflow := if isOpen then "hidden" else "" }

/-- `toggleSidebar`: `isOpen = !sidebar.classList.contains(...)`, then
`setMobileSidebarState(isOpen)`. -/
def toggleSidebar (s : St) : St :=
  setMobileSidebarState (!s.mobileOpen) s

/-- The `#themeToggle` click handler of this variant: `currentTheme` is the
raw `data-theme` attribute (possibly absent), `newTheme` is `dark` unless the
current theme is exactly `dark`; the handler sets the attribute,
`aria-pressed`, the icon, and persists `newTheme` under the `localStorage` key
`theme`. -/
def themeToggleClick (s : St) : St :=
  let next := if s.themeAttr = some "dark" then "light" else "dark"
  { s with
    themeAttr := some next
    themeAriaPressed := if next = "dark" then "true" else "false"
    themeIconClass :=
      if s.themeIconExists then some (if next = "dark" then "fas fa-sun" else "fas fa-moon")
      else s.themeIconClass
    store := Base0.setItem s.store "theme" next }

end Base1

/-- A concrete `Base0` page state with empty `localStorage`. -/
def sampleSt0 : Base0.St :=
  { layoutExists := true
    sidebarExists := true
    collapsed := false
    mobileOpen := false
    bodyOverflow := ""
    themeAttr := some "light"
    themeToggleExists := true
    themeAriaPressed := some "false"
    themeIconExists := true
    themeIconClass := some "fa-solid fa-moon"
    store := fun _ => none }

/-- A concrete `Base1` page state with empty `localStorage`. -/
def sampleSt1 : Base1.St :=
  { mobileOpen := false
    dataMobileOpen := "false"
    ariaExpanded := "false"
    bodyOverflow := ""
    themeAttr := some "light"
    themeAriaPressed := "false"
    themeIconExists := true
    themeIconClass := some "fas fa-moon"
    store := fun _ => none }

namespace StatusJS

/-!
Embedding of the footer status system of `admin/js/base.js`
(`refreshStatus`, `updateStatusIndicators`, `getStatusColor`).  A `fetch`
failure and an unparseable JSON body both land in the same `catch` block and
are modelled by the single outcome `FetchOutcome.fail`.
-/

/-- The JSON payload of a successful status fetch.  `none` models an absent
field; the empty string models a present but falsy field. -/
structure StatusData where
  celeryStatus : Option String
  redisStatus : Option String
  smtpStatus : Option String
  storageDbUsage : Option String
  storageMediaUsage : Option String
deriving DecidableEq, Repr

/-- Outcome of `fetch(statusUrl)` followed by `response.json()`. -/
inductive FetchOutcome where
  | ok (data : StatusData)
  | fail
deriving DecidableEq, Repr

/-- One `[data-service=...]` status indicator element. -/
structure Indicator where
  statusAttr : Option String
  className : String
  hasDot : Bool
  dotColor : Option String
deriving DecidableEq, Repr

/-- The page state the footer status system reads and writes. -/
structure Page where
  hasStatusUrl : Bool
  celery : Option Indicator
  redis : Option Indicator
  smtp : Option Indicator
  storageDbText : Option String
  storageMediaText : Option String
  toasts : List String
  consoleErrors : Nat
  btnAriaBusy : Option String
  btnHtml : String
  btnDisabled : Bool

/-- `getStatusColor(status)`. -/
def getStatusColor (status : String) : String :=
  if status = "healthy" then "#10b981"
  else if status = "degraded" then "#f59e0b"
  else if status = "down" then "#ef4444"
  else "#94a3b8"

/-- The per-service body of `updateStatusIndicators`: when the indicator
element exists and the payload field is truthy, set `data-status`, the class
name and (when the dot exists) the dot color. -/
def applyService (ind : Option Indicator) (v : Option String) : Option Indicator :=
  match ind, v with
  | some i, some status =>
    if status ≠ "" then
      some
        { statusAttr := some status
          className := "status-indicator status-indicator--" ++ status
          hasDot := i.hasDot
          dotColor := if i.hasDot then some (getStatusColor status) else i.dotColor }
    else some i
  | _, _ => ind

/-- The storage part of `updateStatusIndicators`: when the payload field is
truthy and the element exists, set its text. -/
def applyStorage (txt : Option String) (v : Option String) : Option String :=
  match v with
  | some u => if u ≠ "" then (match txt with | some _ => some u | none => none) else txt
  | none => txt

/-- `updateStatusIndicators(data)`. -/
def updateStatusIndicators (data : StatusData) (p : Page) : Page :=
  { p with
    celery := applyService p.celery data.celeryStatus
    redis := applyService p.redis data.redisStatus
    smtp := applyService p.smtp data.smtpStatus
    storageDbText := applyStorage p.storageDbText data.storageDbUsage
    storageMediaText := applyStorage p.storageMediaText data.storageMediaUsage }

/-- `innerHTML` of the refresh button while a manual refresh is in flight. -/
def spinnerHtml : String := "<i class=\"fas fa-spinner fa-spin\"></i> Loading..."

/-- `refreshStatus(manual)`, given the outcome of the fetch.  On success the
indicators are updated and a success toast is shown when manual; on failure
the error is logged to the console and an error toast is shown when manual;
the `finally` block restores the button when manual. -/
def refreshStatus (manual : Bool) (outcome : FetchOutcome) (p : Page) : Page :=
  if !p.hasStatusUrl then p
  else
    let originalHtml := p.btnHtml
    let p :=
      if manual then
        { p with btnAriaBusy := some "true", btnHtml := spinnerHtml, btnDisabled := true }
      else p
    let p :=
      match outcome with
      | .ok data =>
        let p := updateStatusIndicators data p
        if manual then { p with toasts := p.toasts ++ ["Status updated successfully"] } else p
      | .fail =>
        let p := { p with consoleErrors := p.consoleErrors + 1 }
        if manual then { p with toasts := p.toasts ++ ["Failed to update status"] } else p
    if manual then
      { p with btnAriaBusy := some "false", btnHtml := originalHtml, btnDisabled := false }
    else p

end StatusJS

/-- A concrete footer page state: all indicators present and healthy, no
toasts, no console errors. -/
def samplePage : StatusJS.Page :=
  { hasStatusUrl := true
    celery := some
      { statusAttr := some "healthy"
        className := "status-indicator status-indicator--healthy"
        hasDot := true
        dotColor := some "#10b981" }
    redis := some
      { statusAttr := some "healthy"
        className := "status-indicator status-indicator--healthy"
        hasDot := true
        dotColor := some "#10b981" }
    smtp := none
    storageDbText := some "1.2 GB"
    storageMediaText := some "3.4 GB"
    toasts := []
    consoleErrors := 0
    btnAriaBusy := some "false"
    btnHtml := "Refresh"
    btnDisabled := false }

namespace Debounce

/-!
Embedding of the `debounce(func, wait)` utility of `base.js` / `overview.js`:

```
const debounce = (func, wait) => {
  let timeout;
  return (...args) => {
    clearTimeout(timeout);
    timeout = setTimeout(() => func.apply(null, args), wait);
  };
};
```

Each call clears the pending timer (at most one is ever pending) and arms a
new timer that invokes `func` with the arguments of the call `wait` later.  Hence
the timer of a call fires iff no further call arrives strictly before it
fires.  `invocations w calls` computes, from the time-ordered list of calls
`(time, args)`, the list of actual `func` invocations `(time, args)`.
-/

/-- The invocations of `func` produced by a time-ordered sequence of calls to
the debounced function: the timer armed at time `t` fires at `t + w` unless a
later call arrives strictly before `t + w` and cancels it
(`clearTimeout`). -/
def invocations {α : Type} (w : Nat) : List (Nat × α) → List (Nat × α)
  | [] => []
  | [(t, a)] => [(t + w, a)]
  | (t, a) :: (t', a') :: rest =>
    if t' < t + w then invocations w ((t', a') :: rest)
    else (t + w, a) :: invocations w ((t', a') :: rest)

end Debounce

namespace Sched

/-!
Embedding of `scheduleContainerRefresh` of `admin/js/overview.js`:

```
function scheduleContainerRefresh(container, forceRebuild = false) {
  if (!container) return;
  const pending = refreshQueue.get(container);
  if (typeof pending !== "undefined") {
    if (forceRebuild && pending === false) refreshQueue.set(container, true);
    return;
  }
  refreshQueue.set(container, forceRebuild);
  requestAnimationFrame(() => {
    const shouldForce = refreshQueue.get(container);
    refreshQueue.delete(container);
    refreshChartContainer(container, shouldForce === true);
  });
}
```

Containers are `Nat`.  The queue state is the `refreshQueue` map together
with the list of animation-frame callbacks registered and not yet run.
`frameGo` runs the registered callbacks in order at the next animation frame;
for each it records the container, the `shouldForce === true` flag passed to
`refreshChartContainer`, and the queue entry for that container at the moment
the refresh runs (after the `delete`).
-/

/-- The scheduling state: the `refreshQueue` entries and the pending
animation-frame callbacks (one per container, in registration order). -/
structure QState where
  pending : Nat → Option Bool
  callbacks : List Nat

/-- The state before any `scheduleContainerRefresh` call. -/
def emptyQ : QState := { pending := fun _ => none, callbacks := [] }

/-- `scheduleContainerRefresh(container, forceRebuild)`. -/
def schedule (s : QState) (c : Nat) (force : Bool) : QState :=
  match s.pending c with
  | some p =>
    if force && !p then { s with pending := updMap s.pending c (some true) } else s
  | none =>
    { pending := updMap s.pending c (some force), callbacks := s.callbacks ++ [c] }

/-- Run a burst of `scheduleContainerRefresh` calls (container, force) from
the empty state, all before the next animation frame. -/
def scheduleAll (L : List (Nat × Bool)) : QState :=
  L.foldl (fun s cf => schedule s cf.1 cf.2) emptyQ

/-- The animation-frame callbacks, run in order.  Each output entry is
`(container, shouldForce === true, refreshQueue.get container at refresh
time)`. -/
def frameGo (pend : Nat → Option Bool) : List Nat → List (Nat × Bool × Option Bool)
  | [] => []
  | c :: rest =>
    let pend' := updMap pend c none
    (c, pend c == some true, pend' c) :: frameGo pend' rest

/-- The next animation frame: run all registered callbacks. -/
def frame (s : QState) : List (Nat × Bool × Option Bool) :=
  frameGo s.pending s.callbacks

/-- whether container `c` occurs in the burst -/
def appeared (L : List (Nat × Bool)) (c : Nat) : Bool :=
  L.any (fun p => p.1 == c)

/-- whether some call of the burst scheduled container `c` with `force=true` -/
def forcedOr (L : List (Nat × Bool)) (c : Nat) : Bool :=
  L.any (fun p => p.1 == c && p.2)

/-- The invariant of the queue state after a burst `L`. -/
def InvQ (L : List (Nat × Bool)) (s : QState) : Prop :=
  (∀ c, s.pending c = if appeared L c then some (forcedOr L c) else none)
  ∧ s.callbacks.Nodup
  ∧ (∀ c, c ∈ s.callbacks ↔ appeared L c = true)

end Sched

namespace Overview

/-!
Embedding of the chart hydration layer of `admin/js/overview.js`.

Containers are `Nat` (DOM nodes), chart ids are `String` (as in the source).
The three module-level caches `chartInstances`, `chartContainers`,
`chartSizeCache` are maps keyed by chart id; each container also carries its
`dataset.chartId`, and the observed set of the resize observer is tracked.  Chart
instances themselves are external Chart.js objects; they are modelled by
distinct tokens drawn from a counter, so that a rebuilt chart is
distinguishable from the instance it replaces.

Per-container DOM facts that the scripts only read (`data-chart-config`,
whether JSON.parse succeeds on it, the canvas and its id) form the static
`ContainerEnv`; per-call facts (the bounding rect at call time, whether
`new window.Chart` throws, the `Date.now()`-based fresh id) form the call
environments `CallEnv` / `RefreshEnv`.
-/

/-- `container.getBoundingClientRect()` width/height (whole pixels). -/
structure Size where
  width : Int
  height : Int
deriving DecidableEq, Repr

/-- The static DOM facts of one chart container. -/
structure ContainerEnv where
  configAttr : Option String
  configValid : Bool
  hasCanvas : Bool
  canvasId : String

/-- Per-call environment of `hydrateChart`. -/
structure CallEnv where
  rect : Size
  ctorOk : Bool
  freshId : String

/-- Per-call environment of `refreshChartContainer`. -/
structure RefreshEnv where
  rect : Size
  updateOk : Bool
  ctorOk : Bool
  freshId : String

/-- The module-level state of `overview.js`. -/
structure ChartState where
  instances : String → Option Nat
  containers : String → Option Nat
  sizeCache : String → Option Size
  dataset : Nat → Option String
  observed : Nat → Bool
  nextInst : Nat
  errLog : Nat

/-- The state at module load: all caches empty. -/
def init : ChartState :=
  { instances := fun _ => none
    containers := fun _ => none
    sizeCache := fun _ => none
    dataset := fun _ => none
    observed := fun _ => false
    nextInst := 0
    errLog := 0 }

/-- `parseJSON(value)`: absent or empty input returns `null` silently; a
present non-empty value is parsed, logging on failure.  Returns the parse
result (the config content itself is irrelevant to the caches) and whether
the failure was logged. -/
def parseJSON (attr : Option String) (valid : Bool) : Option Unit × Bool :=
  match attr with
  | none => (none, false)
  | some v => if v = "" then (none, false) else if valid then (some (), false) else (none, true)

/-- whether `parseJSON` yields a config for this container -/
def configOk (e : ContainerEnv) : Bool := (parseJSON e.configAttr e.configValid).1.isSome

/-- JavaScript `a || b` on strings: the empty string is falsy. -/
def jsOr (a b : String) : String := if a = "" then b else a

/-- a possibly-undefined string attribute, as JavaScript sees it -/
def optStr (a : Option String) : String := a.getD ""

/-- `destroyChart(id)`.  `Map.delete` of an absent key is the identity, so
the guarded deletes of the source collapse to unconditional map updates; the
dataset key is removed only when the container recorded exactly this id, and
the container is unobserved when `chartContainers` knows it. -/
def destroyChart (id : String) (s : ChartState) : ChartState :=
  if id = "" then s
  else
    { s with
      instances := updMap s.instances id none
      sizeCache := updMap s.sizeCache id none
      containers := updMap s.containers id none
      observed := fun c' => if s.containers id = some c' then false else s.observed c'
      dataset := fun c' =>
        if s.containers id = some c' ∧ s.dataset c' = some id then none else s.dataset c' }

/-- The body of `hydrateChart` after the config and canvas guards: clean up
any existing chart under the chosen id, then `new window.Chart(ctx, config)`
and, on success, register the instance, the dataset key, the container, the
size and the resize observation; on a constructor throw, only log. -/
def hydrateCore (c : Nat) (chartId : String) (ce : CallEnv) (s : ChartState) : ChartState :=
  let s := destroyChart chartId s
  if ce.ctorOk then
    { s with
      instances := updMap s.instances chartId (some s.nextInst)
      nextInst := s.nextInst + 1
      dataset := fun c' => if c' = c then some chartId else s.dataset c'
      containers := updMap s.containers chartId (some c)
      sizeCache := updMap s.sizeCache chartId (some ce.rect)
      observed := fun c' => if c' = c then true else s.observed c' }
  else { s with errLog := s.errLog + 1 }

/-- `hydrateChart(container, index, chartIdOverride)`.  The `index` argument
only feeds the fresh id, which `CallEnv` already carries.  The chart id is
`chartIdOverride || container.dataset.chartId || canvas.id || (fresh)`.
`applyChartFontDefaults` and `applyThemeOverrides` mutate only the Chart.js
defaults and the parsed config and are invisible to the caches. -/
def hydrateChart (cenv : Nat → ContainerEnv) (c : Nat) (ov : Option String)
    (ce : CallEnv) (s : ChartState) : ChartState :=
  let env := cenv c
  let pj := parseJSON env.configAttr env.configValid
  let s := if pj.2 then { s with errLog := s.errLog + 1 } else s
  if pj.1.isNone then s
  else if !env.hasCanvas then s
  else
    hydrateCore c (jsOr (optStr ov) (jsOr (optStr (s.dataset c)) (jsOr env.canvasId ce.freshId)))
      ce s

/-- `widthChanged || heightChanged` of `refreshChartContainer`: no cached
size, or a width/height drift of more than 8 pixels. -/
def sizeChanged (previous : Option Size) (rect : Size) : Bool :=
  match previous with
  | none => true
  | some p =>
    decide (8 < (p.width - rect.width).natAbs)
      || decide (8 < (p.height - rect.height).natAbs)

/-- `refreshChartContainer(container, forceRebuild)`.  The source computes
`widthChanged`/`heightChanged` from the previous cached size, then writes the
current rect into `chartSizeCache`, then either rebuilds (size drift or
forced) or resizes/updates in place, rebuilding if the in-place update
throws.  The rect a rebuild reads in the same synchronous execution is the
rect the refresh read. -/
def refreshChartContainer (cenv : Nat → ContainerEnv) (c : Nat) (forceRebuild : Bool)
    (re : RefreshEnv) (s : ChartState) : ChartState :=
  match s.dataset c with
  | none => hydrateChart cenv c none ⟨re.rect, re.ctorOk, re.freshId⟩ s
  | some id =>
    if id = "" then hydrateChart cenv c none ⟨re.rect, re.ctorOk, re.freshId⟩ s
    else
      match s.instances id with
      | none => hydrateChart cenv c none ⟨re.rect, re.ctorOk, re.freshId⟩ s
      | some _ =>
        if forceRebuild then hydrateChart cenv c (some id) ⟨re.rect, re.ctorOk, re.freshId⟩ s
        else
          if sizeChanged (s.sizeCache id) re.rect then
            hydrateChart cenv c (some id) ⟨re.rect, re.ctorOk, re.freshId⟩
              { s with sizeCache := updMap s.sizeCache id (some re.rect) }
          else if re.updateOk then
            { s with sizeCache := updMap s.sizeCache id (some re.rect) }
          else
            hydrateChart cenv c (some id) ⟨re.rect, re.ctorOk, re.freshId⟩
              { s with
                sizeCache := updMap s.sizeCache id (some re.rect)
                errLog := s.errLog + 1 }

/-- The operations reachable through the public surface of `overview.js`:
`initCharts` hydrates containers (no override), `destroyChart` is exported on
`window.OverviewDashboard`, and the resize observer / theme listeners /
`refreshAllCharts` funnel into `refreshChartContainer`. -/
inductive Op where
  | hydrate (c : Nat) (ce : CallEnv)
  | destroy (id : String)
  | refresh (c : Nat) (force : Bool) (re : RefreshEnv)

/-- One operation. -/
def step (cenv : Nat → ContainerEnv) (s : ChartState) : Op → ChartState
  | .hydrate c ce => hydrateChart cenv c none ce s
  | .destroy id => destroyChart id s
  | .refresh c f re => refreshChartContainer cenv c f re s

/-- A sequence of operations from module load. -/
def run (cenv : Nat → ContainerEnv) (ops : List Op) : ChartState :=
  ops.foldl (step cenv) init

/-- Well-formedness of an operation: generated fresh ids (of shape
`chart-(Date.now())-(index)`) are nonempty. -/
def Op.wf : Op → Prop
  | .hydrate _ ce => ce.freshId ≠ ""
  | .destroy _ => True
  | .refresh _ _ re => re.freshId ≠ ""

/-- The cache invariant of the hydration layer. -/
structure Inv (cenv : Nat → ContainerEnv) (s : ChartState) : Prop where
  instDom : ∀ id, (s.instances id).isSome = (s.containers id).isSome
  sizeDom : ∀ id, (s.sizeCache id).isSome = (s.containers id).isSome
  contDs : ∀ id c, s.containers id = some c → s.dataset c = some id
  dsCont : ∀ c id, s.dataset c = some id → id ≠ "" ∧ s.containers id = some c
  instLt : ∀ id n, s.instances id = some n → n < s.nextInst
  contEnv : ∀ id c, s.containers id = some c →
    configOk (cenv c) = true ∧ (cenv c).hasCanvas = true

end Overview

/-- A container environment whose `data-chart-config` attribute is present
but empty. -/
def cenvEmptyCfg : Nat → Overview.ContainerEnv := fun _ =>
  { configAttr := some ""
    configValid := false
    hasCanvas := true
    canvasId := "" }

/-- A container environment whose `data-chart-config` attribute is present,
non-empty, and not valid JSON. -/
def cenvBadCfg : Nat → Overview.ContainerEnv := fun _ =>
  { configAttr := some "not json"
    configValid := false
    hasCanvas := true
    canvasId := "" }

/-- A container environment with a valid chart config and an id-carrying
canvas. -/
def cenvGoodCfg : Nat → Overview.ContainerEnv := fun _ =>
  { configAttr := some "chartcfg"
    configValid := true
    hasCanvas := true
    canvasId := "chart-main" }

/-- A successful hydration call environment. -/
def ceOk : Overview.CallEnv :=
  { rect := { width := 100, height := 50 }, ctorOk := true, freshId := "chart-x" }

/-- The state after one successful hydration of container 0 under
`cenvGoodCfg`: chart id `chart-main`, instance token 0, cached size 100x50. -/
def runOne : Overview.ChartState :=
  Overview.run cenvGoodCfg [Overview.Op.hydrate 0 ceOk]

/-- A refresh environment with a 10-pixel width drift where the rebuilt chart
constructor throws. -/
def reCtorFail : Overview.RefreshEnv :=
  { rect := { width := 110, height := 50 }, updateOk := true, ctorOk := false
    freshId := "chart-y" }

/-- A refresh environment with a 10-pixel width drift and a succeeding
constructor. -/
def reResize : Overview.RefreshEnv :=
  { rect := { width := 110, height := 50 }, updateOk := true, ctorOk := true
    freshId := "chart-y" }

/-! ## Theorems -/

theorem updMap_same {κ β : Type} [DecidableEq κ] (f : κ → Option β) (k : κ) (v : Option β) :
    updMap f k v k = v := by
  simp [updMap]

theorem updMap_other {κ β : Type} [DecidableEq κ] (f : κ → Option β) (k k' : κ)
    (v : Option β) (h : k' ≠ k) : updMap f k v k' = f k' := by
  simp [updMap, h]

namespace Entrypoint

/-- Every event the wait loop emits is either the substituted readiness check
or a `sleep 1`. -/
theorem waitLoop_events (e : Env) :
    ∀ fuel k ev, ev ∈ (waitLoop e fuel k).1 → ev = checkEvent e ∨ ev = Event.sleepOne := by
  intro fuel
  induction fuel with
  | zero => intro k ev h; simp [waitLoop] at h
  | succ n ih =>
    intro k ev h
    by_cases hr : e.ready k
    · simp [waitLoop, hr] at h
      exact Or.inl h
    · simp [waitLoop, hr] at h
      rcases h with h | h | h
      · exact Or.inl h
      · exact Or.inr h
      · exact ih (k + 1) ev h

/-- The wait loop never emits the `exec` event. -/
theorem execCmd_not_mem_waitLoop (e : Env) (fuel k : Nat) (c : List String) :
    Event.execCmd c ∉ (waitLoop e fuel k).1 := by
  intro h
  rcases waitLoop_events e fuel k _ h with h' | h' <;> simp [checkEvent] at h'

/-- If every readiness check in the window fails, the loop trace is exactly
`fuel` repetitions of check-then-sleep and the loop does not terminate. -/
theorem waitLoop_all_fail (e : Env) :
    ∀ fuel k, (∀ i, i < fuel → e.ready (k + i) = false) →
      waitLoop e fuel k =
        ((List.replicate fuel [checkEvent e, Event.sleepOne]).flatten, false) := by
  intro fuel
  induction fuel with
  | zero => intro k _; simp [waitLoop]
  | succ n ih =>
    intro k hall
    have h0 : e.ready k = false := by simpa using hall 0 (Nat.succ_pos n)
    have hrest : ∀ i, i < n → e.ready (k + 1 + i) = false := by
      intro i hi
      have := hall (i + 1) (Nat.succ_lt_succ hi)
      simpa [Nat.add_assoc, Nat.add_comm 1 i] using this
    have := ih (k + 1) hrest
    simp [waitLoop, h0, this, List.replicate_succ]

/-- If the j-th check is the first success (within fuel), the loop trace is j
repetitions of check-then-sleep followed by the successful check. -/
theorem waitLoop_first_success (e : Env) :
    ∀ j fuel k, j < fuel → e.ready (k + j) = true →
      (∀ i, i < j → e.ready (k + i) = false) →
      waitLoop e fuel k =
        ((List.replicate j [checkEvent e, Event.sleepOne]).flatten ++ [checkEvent e], true) := by
  intro j
  induction j with
  | zero =>
    intro fuel k hlt hready _
    match fuel, hlt with
    | fuel + 1, _ =>
      simp at hready
      simp [waitLoop, hready]
  | succ n ih =>
    intro fuel k hlt hready hfirst
    match fuel, hlt with
    | fuel + 1, hlt =>
      have h0 : e.ready k = false := by simpa using hfirst 0 (Nat.succ_pos n)
      have hr : e.ready (k + 1 + n) = true := by
        have : k + 1 + n = k + (n + 1) := by omega
        rw [this]; exact hready
      have hf : ∀ i, i < n → e.ready (k + 1 + i) = false := by
        intro i hi
        have := hfirst (i + 1) (Nat.succ_lt_succ hi)
        have heq : k + 1 + i = k + (i + 1) := by omega
        rw [heq]; exact this
      have := ih fuel (k + 1) (Nat.lt_of_succ_lt_succ hlt) hr hf
      simp [waitLoop, h0, this, List.replicate_succ]

/-- If the loop terminated, some readiness check in the window succeeded. -/
theorem waitLoop_done_ready (e : Env) :
    ∀ fuel k, (waitLoop e fuel k).2 = true → ∃ i, i < fuel ∧ e.ready (k + i) = true := by
  intro fuel
  induction fuel with
  | zero => intro k h; simp [waitLoop] at h
  | succ n ih =>
    intro k h
    by_cases hr : e.ready k
    · exact ⟨0, Nat.succ_pos n, by simpa using hr⟩
    · simp [waitLoop, hr] at h
      rcases ih (k + 1) h with ⟨i, hi, hri⟩
      refine ⟨i + 1, Nat.succ_lt_succ hi, ?_⟩
      have : k + (i + 1) = k + 1 + i := by omega
      rw [this]; exact hri

/-- C1 (counterexample).  The claim quantifies over every environment, but in
an environment where `pg_isready` is not on the `PATH`, `entrypoint.sh`
execs the command immediately: the trace consists of the `exec` alone even
though no readiness check ever succeeded (indeed none was ever run). -/
theorem claim_C1_counterexample :
    (run noPgEnv 5).1 = [Event.execCmd ["gunicorn"]] ∧
    ∀ k, noPgEnv.ready k = false :=
  ⟨rfl, fun _ => rfl⟩

/-- C1 (amended).  When `pg_isready` is on the `PATH`: the command is launched by exec
only after some readiness check succeeded; while every check fails the script
loops, emitting one check and one 1-second sleep per attempt, and never
launches the command; and when the j-th check is the first success the trace
is j check/sleep rounds, the successful check, then the exec. -/
theorem claim_C1 (e : Env) (fuel : Nat) (hpg : e.pgIsReadyOnPath = true) :
    (Event.execCmd e.cmd ∈ (run e fuel).1 → ∃ k, k < fuel ∧ e.ready k = true)
    ∧ ((∀ k, k < fuel → e.ready k = false) →
        (run e fuel).1 = (List.replicate fuel [checkEvent e, Event.sleepOne]).flatten
        ∧ Event.execCmd e.cmd ∉ (run e fuel).1)
    ∧ (∀ j, j < fuel → e.ready j = true → (∀ i, i < j → e.ready i = false) →
        (run e fuel).1 =
          (List.replicate j [checkEvent e, Event.sleepOne]).flatten
            ++ [checkEvent e, Event.execCmd e.cmd]) := by
  refine ⟨?_, ?_, ?_⟩
  · intro hmem
    by_cases hdone : (waitLoop e fuel 0).2 = true
    · rcases waitLoop_done_ready e fuel 0 hdone with ⟨i, hi, hri⟩
      exact ⟨i, hi, by simpa using hri⟩
    · exfalso
      simp only [run, hpg, if_true] at hmem
      rw [if_neg hdone] at hmem
      exact execCmd_not_mem_waitLoop e fuel 0 e.cmd hmem
  · intro hall
    have hfail : ∀ i, i < fuel → e.ready (0 + i) = false := by
      intro i hi; simpa using hall i hi
    have hw := waitLoop_all_fail e fuel 0 hfail
    constructor
    · simp [run, hpg, hw]
    · intro hmem
      simp only [run, hpg, if_true, hw] at hmem
      exact execCmd_not_mem_waitLoop e fuel 0 e.cmd (by rw [hw]; simpa using hmem)
  · intro j hj hready hfirst
    have hr : e.ready (0 + j) = true := by simpa using hready
    have hf : ∀ i, i < j → e.ready (0 + i) = false := by
      intro i hi; simpa using hfirst i hi
    have hw := waitLoop_first_success e j fuel 0 hj hr hf
    simp [run, hpg, hw]

/-- Witness for `claim_C1` at the concrete environment `readyAt2Env`. -/
theorem claim_C1_witness :
    (Event.execCmd readyAt2Env.cmd ∈ (run readyAt2Env 5).1 →
      ∃ k, k < 5 ∧ readyAt2Env.ready k = true)
    ∧ ((∀ k, k < 5 → readyAt2Env.ready k = false) →
        (run readyAt2Env 5).1 =
          (List.replicate 5 [checkEvent readyAt2Env, Event.sleepOne]).flatten
        ∧ Event.execCmd readyAt2Env.cmd ∉ (run readyAt2Env 5).1)
    ∧ (∀ j, j < 5 → readyAt2Env.ready j = true →
        (∀ i, i < j → readyAt2Env.ready i = false) →
        (run readyAt2Env 5).1 =
          (List.replicate j [checkEvent readyAt2Env, Event.sleepOne]).flatten
            ++ [checkEvent readyAt2Env, Event.execCmd readyAt2Env.cmd]) :=
  claim_C1 readyAt2Env 5 rfl

/-- C10.  `entrypoint.sh` substitutes the defaults `db`, `5432`, `postgres`
for unset or empty `POSTGRES_HOST`/`POSTGRES_PORT`/`POSTGRES_USER`; every
`pg_isready` invocation in the trace uses exactly the substituted values; and
when `pg_isready` is not on the `PATH` the readiness wait is skipped and the
command is launched by exec immediately. -/
theorem claim_C10 (e : Env) (fuel : Nat) :
    ((e.postgresHost = none ∨ e.postgresHost = some "") → host e = "db")
    ∧ ((e.postgresPort = none ∨ e.postgresPort = some "") → port e = "5432")
    ∧ ((e.postgresUser = none ∨ e.postgresUser = some "") → user e = "postgres")
    ∧ (∀ a b c, Event.check a b c ∈ (run e fuel).1 →
        a = host e ∧ b = port e ∧ c = user e)
    ∧ (e.pgIsReadyOnPath = false → run e fuel = ([Event.execCmd e.cmd], true)) := by
  refine ⟨?_, ?_, ?_, ?_, ?_⟩
  · rintro (h | h) <;> simp [host, defaultIfUnsetOrEmpty, h]
  · rintro (h | h) <;> simp [port, defaultIfUnsetOrEmpty, h]
  · rintro (h | h) <;> simp [user, defaultIfUnsetOrEmpty, h]
  · intro a b c hmem
    have hloop : Event.check a b c ∈ (waitLoop e fuel 0).1 → a = host e ∧ b = port e ∧ c = user e := by
      intro hm
      rcases waitLoop_events e fuel 0 _ hm with h' | h'
      · simp only [checkEvent, Event.check.injEq] at h'
        exact h'
      · simp at h'
    by_cases hpg : e.pgIsReadyOnPath
    · simp only [run, hpg, if_true] at hmem
      by_cases hdone : (waitLoop e fuel 0).2 = true
      · rw [if_pos hdone] at hmem
        rcases List.mem_append.mp hmem with hm | hm
        · exact hloop hm
        · simp at hm
      · rw [if_neg hdone] at hmem
        exact hloop hmem
    · simp [run, hpg] at hmem
  · intro hpg
    simp [run, hpg]

/-- Witness for `claim_C10` at the concrete environment `noPgEnv`. -/
theorem claim_C10_witness :
    host noPgEnv = "db" ∧ port noPgEnv = "5432" ∧ user noPgEnv = "postgres"
    ∧ run noPgEnv 3 = ([Event.execCmd ["gunicorn"]], true) :=
  ⟨(claim_C10 noPgEnv 3).1 (Or.inl rfl),
   (claim_C10 noPgEnv 3).2.1 (Or.inl rfl),
   (claim_C10 noPgEnv 3).2.2.1 (Or.inl rfl),
   (claim_C10 noPgEnv 3).2.2.2.2 rfl⟩

end Entrypoint

/-- The `localStorage` content is preserved by `applyTheme`. -/
theorem Base0.applyTheme_store (t : String) (s : Base0.St) :
    (Base0.applyTheme t s).store = s.store := by
  simp only [Base0.applyTheme]
  split <;> [skip; rfl]
  split <;> rfl

/-- C2 (counterexample).  On a page with empty `localStorage`, running the
sidebar collapse toggle click handler writes the `localStorage` key
`admin_sidebar_collapsed`, and running the theme toggle click handler writes
the `localStorage` key `theme` — persisted, cross-request browser state. -/
theorem claim_C2_counterexample :
    (Base0.collapseToggleClick sampleSt0).store "admin_sidebar_collapsed" = some "1"
    ∧ sampleSt0.store "admin_sidebar_collapsed" = none
    ∧ (Base0.themeToggleClick sampleSt0).store "theme" = some "dark"
    ∧ sampleSt0.store "theme" = none := by
  refine ⟨?_, rfl, ?_, rfl⟩ <;> decide

/-- C2 (amended).  The sidebar collapse toggle handler changes `localStorage`
exactly at the key `admin_sidebar_collapsed` (recording the new collapsed
state), and the theme toggle handlers (both `base.js` variants) change
`localStorage` exactly at the key `theme` (recording the new theme); every
other key is left unchanged. -/
theorem claim_C2 (s : Base0.St) (s1 : Base1.St) (hl : s.layoutExists = true) :
    ((Base0.collapseToggleClick s).store "admin_sidebar_collapsed"
        = some (if s.collapsed then "0" else "1"))
    ∧ (∀ k, k ≠ "admin_sidebar_collapsed" → (Base0.collapseToggleClick s).store k = s.store k)
    ∧ ((Base0.themeToggleClick s).store "theme"
        = some (if s.themeAttr.getD "light" = "dark" then "light" else "dark"))
    ∧ (∀ k, k ≠ "theme" → (Base0.themeToggleClick s).store k = s.store k)
    ∧ ((Base1.themeToggleClick s1).store "theme"
        = some (if s1.themeAttr = some "dark" then "light" else "dark"))
    ∧ (∀ k, k ≠ "theme" → (Base1.themeToggleClick s1).store k = s1.store k) := by
  refine ⟨?_, ?_, ?_, ?_, ?_, ?_⟩
  · simp only [Base0.collapseToggleClick, Base0.setCollapsed, hl, if_true, Bool.true_and,
      Base0.setItem]
    cases s.collapsed <;> simp
  · intro k hk
    simp only [Base0.collapseToggleClick, Base0.setCollapsed, hl, if_true, Base0.setItem]
    simp [hk]
  · simp only [Base0.themeToggleClick, Base0.applyTheme_store, Base0.setItem]
    simp
  · intro k hk
    simp only [Base0.themeToggleClick, Base0.applyTheme_store, Base0.setItem]
    simp [hk]
  · simp [Base1.themeToggleClick, Base0.setItem]
  · intro k hk
    simp [Base1.themeToggleClick, Base0.setItem, hk]

/-- Witness for `claim_C2` at the concrete page states `sampleSt0` / `sampleSt1`. -/
theorem claim_C2_witness :
    ((Base0.collapseToggleClick sampleSt0).store "admin_sidebar_collapsed"
        = some (if sampleSt0.collapsed then "0" else "1"))
    ∧ (∀ k, k ≠ "admin_sidebar_collapsed" →
        (Base0.collapseToggleClick sampleSt0).store k = sampleSt0.store k)
    ∧ ((Base0.themeToggleClick sampleSt0).store "theme"
        = some (if sampleSt0.themeAttr.getD "light" = "dark" then "light" else "dark"))
    ∧ (∀ k, k ≠ "theme" → (Base0.themeToggleClick sampleSt0).store k = sampleSt0.store k)
    ∧ ((Base1.themeToggleClick sampleSt1).store "theme"
        = some (if sampleSt1.themeAttr = some "dark" then "light" else "dark"))
    ∧ (∀ k, k ≠ "theme" → (Base1.themeToggleClick sampleSt1).store k = sampleSt1.store k) :=
  claim_C2 sampleSt0 sampleSt1 rfl

/-- C5.  In every page state where the sidebar exists and does not carry the
mobile-open class, clicking the sidebar toggle adds the class and clicking it
again removes it; on both `base.js` variants the toggle is an involution on
the mobile-open state. -/
theorem claim_C5 (s1 : Base1.St) (s0 : Base0.St)
    (h1 : s1.mobileOpen = false) (h0e : s0.sidebarExists = true)
    (h0 : s0.mobileOpen = false) :
    (Base1.toggleSidebar s1).mobileOpen = true
    ∧ (Base1.toggleSidebar (Base1.toggleSidebar s1)).mobileOpen = false
    ∧ (∀ t : Base1.St, (Base1.toggleSidebar (Base1.toggleSidebar t)).mobileOpen = t.mobileOpen)
    ∧ (Base0.toggleMobileSidebar s0).mobileOpen = true
    ∧ (Base0.toggleMobileSidebar (Base0.toggleMobileSidebar s0)).mobileOpen = false
    ∧ (∀ t : Base0.St, t.sidebarExists = true →
        (Base0.toggleMobileSidebar (Base0.toggleMobileSidebar t)).mobileOpen = t.mobileOpen) := by
  refine ⟨?_, ?_, ?_, ?_, ?_, ?_⟩
  · simp [Base1.toggleSidebar, Base1.setMobileSidebarState, h1]
  · simp [Base1.toggleSidebar, Base1.setMobileSidebarState, h1]
  · intro t
    simp [Base1.toggleSidebar, Base1.setMobileSidebarState]
  · simp [Base0.toggleMobileSidebar, Base0.openMobileSidebar, Base0.closeMobileSidebar, h0e, h0]
  · simp [Base0.toggleMobileSidebar, Base0.openMobileSidebar, Base0.closeMobileSidebar, h0e, h0]
  · intro t ht
    cases hm : t.mobileOpen <;>
      simp [Base0.toggleMobileSidebar, Base0.openMobileSidebar, Base0.closeMobileSidebar, ht, hm]

/-- Witness for `claim_C5` at the concrete page states `sampleSt1` / `sampleSt0`. -/
theorem claim_C5_witness :
    (Base1.toggleSidebar sampleSt1).mobileOpen = true
    ∧ (Base1.toggleSidebar (Base1.toggleSidebar sampleSt1)).mobileOpen = false
    ∧ (∀ t : Base1.St, (Base1.toggleSidebar (Base1.toggleSidebar t)).mobileOpen = t.mobileOpen)
    ∧ (Base0.toggleMobileSidebar sampleSt0).mobileOpen = true
    ∧ (Base0.toggleMobileSidebar (Base0.toggleMobileSidebar sampleSt0)).mobileOpen = false
    ∧ (∀ t : Base0.St, t.sidebarExists = true →
        (Base0.toggleMobileSidebar (Base0.toggleMobileSidebar t)).mobileOpen = t.mobileOpen) :=
  claim_C5 sampleSt1 sampleSt0 rfl rfl rfl

/-- C3 (counterexample).  On an automatic (non-manual) status refresh whose
fetch fails, no toast is shown: the failure is only logged to the console.
The previously displayed indicators are indeed left unchanged. -/
theorem claim_C3_counterexample :
    (StatusJS.refreshStatus false .fail samplePage).toasts = []
    ∧ (StatusJS.refreshStatus false .fail samplePage).consoleErrors = 1
    ∧ (StatusJS.refreshStatus false .fail samplePage).celery = samplePage.celery := by
  refine ⟨rfl, rfl, rfl⟩

/-- C3 (amended).  For every execution of the footer status refresh whose
fetch fails (rejects or returns unparseable JSON), every previously displayed
status indicator (service status attributes, dot colors, storage fields) is
left unchanged and the failure is logged to the console; a toast is shown
exactly when the refresh was manual. -/
theorem claim_C3 (p : StatusJS.Page) (manual : Bool) (h : p.hasStatusUrl = true) :
    (StatusJS.refreshStatus manual .fail p).celery = p.celery
    ∧ (StatusJS.refreshStatus manual .fail p).redis = p.redis
    ∧ (StatusJS.refreshStatus manual .fail p).smtp = p.smtp
    ∧ (StatusJS.refreshStatus manual .fail p).storageDbText = p.storageDbText
    ∧ (StatusJS.refreshStatus manual .fail p).storageMediaText = p.storageMediaText
    ∧ (StatusJS.refreshStatus manual .fail p).consoleErrors = p.consoleErrors + 1
    ∧ (StatusJS.refreshStatus manual .fail p).toasts
        = (if manual then p.toasts ++ ["Failed to update status"] else p.toasts) := by
  cases manual <;> simp [StatusJS.refreshStatus, h]

/-- Witness for `claim_C3` at the concrete page state `samplePage`, manual
refresh. -/
theorem claim_C3_witness :
    (StatusJS.refreshStatus true .fail samplePage).celery = samplePage.celery
    ∧ (StatusJS.refreshStatus true .fail samplePage).redis = samplePage.redis
    ∧ (StatusJS.refreshStatus true .fail samplePage).smtp = samplePage.smtp
    ∧ (StatusJS.refreshStatus true .fail samplePage).storageDbText = samplePage.storageDbText
    ∧ (StatusJS.refreshStatus true .fail samplePage).storageMediaText
        = samplePage.storageMediaText
    ∧ (StatusJS.refreshStatus true .fail samplePage).consoleErrors
        = samplePage.consoleErrors + 1
    ∧ (StatusJS.refreshStatus true .fail samplePage).toasts
        = (if true then samplePage.toasts ++ ["Failed to update status"]
           else samplePage.toasts) :=
  claim_C3 samplePage true rfl

/-- C6.  For every wait time `w > 0` and every finite nonempty burst of calls
to the debounced function whose inter-arrival gaps are all less than `w`
(every earlier pending timer is cancelled by `clearTimeout`), `func` is
invoked exactly once, with the arguments of the last call of the burst, at
time `last + w`, strictly after every call of the burst. -/
theorem claim_C6 {α : Type} (w : Nat) (hw : 0 < w) :
    ∀ calls : List (Nat × α), calls ≠ [] →
      calls.Chain' (fun p q => p.1 ≤ q.1 ∧ q.1 < p.1 + w) →
      ∃ lastCall, calls.getLast? = some lastCall
        ∧ Debounce.invocations w calls = [(lastCall.1 + w, lastCall.2)]
        ∧ ∀ p ∈ calls, p.1 < lastCall.1 + w := by
  intro calls
  induction calls with
  | nil => intro h; exact absurd rfl h
  | cons hd tl ih =>
    intro _ hburst
    match tl, hburst with
    | [], _ =>
      refine ⟨hd, rfl, ?_, ?_⟩
      · obtain ⟨t, a⟩ := hd
        simp [Debounce.invocations]
      · intro p hp
        simp at hp
        subst hp
        omega
    | hd2 :: tl2, hburst =>
      obtain ⟨⟨hle, hlt⟩, hchain⟩ := List.chain'_cons.mp hburst
      obtain ⟨lastCall, hlast, hinv, hall⟩ := ih (by simp) hchain
      refine ⟨lastCall, ?_, ?_, ?_⟩
      · rw [List.getLast?_cons_cons]
        exact hlast
      · obtain ⟨t, a⟩ := hd
        obtain ⟨t', a'⟩ := hd2
        simp only [Debounce.invocations, if_pos hlt]
        exact hinv
      · intro p hp
        rcases List.mem_cons.mp hp with hp | hp
        · subst hp
          have h2 : hd2.1 < lastCall.1 + w := hall hd2 (List.mem_cons_self hd2 tl2)
          omega
        · exact hall p hp

/-- Witness for `claim_C6`: a concrete burst of three calls with gaps below
the wait time 5. -/
theorem claim_C6_witness :
    ∃ lastCall, ([(0, 10), (3, 20), (6, 30)] : List (Nat × Nat)).getLast? = some lastCall
      ∧ Debounce.invocations 5 [(0, 10), (3, 20), (6, 30)] = [(lastCall.1 + 5, lastCall.2)]
      ∧ ∀ p ∈ ([(0, 10), (3, 20), (6, 30)] : List (Nat × Nat)), p.1 < lastCall.1 + 5 :=
  claim_C6 5 (by decide) [(0, 10), (3, 20), (6, 30)] (by decide)
    (by simp [List.chain'_cons])

namespace Sched

theorem forcedOr_appeared (L : List (Nat × Bool)) (c : Nat)
    (h : appeared L c = false) : forcedOr L c = false := by
  induction L with
  | nil => rfl
  | cons hd tl ih =>
    simp only [appeared, List.any_cons, Bool.or_eq_false_iff] at h
    simp only [forcedOr, List.any_cons, Bool.or_eq_false_iff]
    exact ⟨by simp [h.1], ih h.2⟩

theorem invQ_step (L : List (Nat × Bool)) (s : QState) (c : Nat) (f : Bool)
    (h : InvQ L s) : InvQ (L ++ [(c, f)]) (schedule s c f) := by
  obtain ⟨h1, h2, h3⟩ := h
  have happ : ∀ c', appeared (L ++ [(c, f)]) c' = (appeared L c' || (c == c')) := by
    intro c'; simp [appeared, List.any_append]
  have hfor : ∀ c', forcedOr (L ++ [(c, f)]) c' = (forcedOr L c' || ((c == c') && f)) := by
    intro c'; simp [forcedOr, List.any_append]
  by_cases hc : appeared L c = true
  · have hpc : s.pending c = some (forcedOr L c) := by rw [h1 c, if_pos hc]
    by_cases hforce : (f && !(forcedOr L c)) = true
    · refine ⟨?_, ?_, ?_⟩
      · intro c'
        simp only [schedule, hpc, hforce, if_true]
        by_cases hc' : c' = c
        · subst hc'
          rw [updMap_same, happ, hfor, hc]
          have hf : f = true := by
            rcases Bool.and_eq_true_iff.mp hforce with ⟨hf, _⟩; exact hf
          have hp : forcedOr L c' = false := by
            rcases Bool.and_eq_true_iff.mp hforce with ⟨_, hp⟩
            simpa using hp
          simp [hp, hf]
        · rw [updMap_other _ _ _ _ hc', happ, hfor, h1 c']
          have hbeq : (c == c') = false := by
            simp [Ne.symm hc']
          simp [hbeq]
      · simpa [schedule, hpc, hforce] using h2
      · intro c'
        simp only [schedule, hpc, hforce, if_true]
        rw [happ]
        by_cases hc' : c' = c
        · subst hc'
          simp [h3 c', hc]
        · have hbeq : (c == c') = false := by simp [Ne.symm hc']
          simp [h3 c', hbeq]
    · have hforce' : (f && !(forcedOr L c)) = false := by
        revert hforce; cases (f && !(forcedOr L c)) <;> simp
      have hsch : schedule s c f = s := by
        simp [schedule, hpc, hforce']
      refine ⟨?_, ?_, ?_⟩
      · intro c'
        rw [hsch]
        by_cases hc' : c' = c
        · rw [hc', hpc, happ, hfor, hc]
          have hor : (forcedOr L c || ((c == c) && f)) = forcedOr L c := by
            cases hf : f <;> cases hp : forcedOr L c <;> simp_all
          simp [hor]
          intro hf
          rw [hf] at hforce'
          simpa using hforce'
        · have hbeq : (c == c') = false := by simp [Ne.symm hc']
          rw [h1 c', happ, hfor, hbeq]
          simp
      · rw [hsch]; exact h2
      · intro c'
        rw [hsch, happ]
        by_cases hc' : c' = c
        · rw [hc']
          simp [h3 c, hc]
        · have hbeq : (c == c') = false := by simp [Ne.symm hc']
          simp [h3 c', hbeq]
  · have hpc : s.pending c = none := by
      rw [h1 c, if_neg]; simpa using hc
    have hnotin : c ∉ s.callbacks := by
      intro hmem
      exact hc ((h3 c).mp hmem)
    refine ⟨?_, ?_, ?_⟩
    · intro c'
      simp only [schedule, hpc]
      by_cases hc' : c' = c
      · subst hc'
        rw [updMap_same, happ, hfor]
        have hfa : forcedOr L c' = false :=
          forcedOr_appeared L c' (by simpa using hc)
        have hap : appeared L c' = false := by simpa using hc
        simp [hfa, hap]
      · rw [updMap_other _ _ _ _ hc', happ, hfor, h1 c']
        have hbeq : (c == c') = false := by simp [Ne.symm hc']
        simp [hbeq]
    · simp only [schedule, hpc]
      simp [List.nodup_append, h2, hnotin]
    · intro c'
      simp only [schedule, hpc]
      rw [happ]
      by_cases hc' : c' = c
      · subst hc'
        simp
      · have hbeq : (c == c') = false := by simp [Ne.symm hc']
        simp [h3 c', hbeq, hc']

theorem invQ_scheduleAll (L : List (Nat × Bool)) : InvQ L (scheduleAll L) := by
  induction L using List.reverseRecOn with
  | nil =>
    refine ⟨fun c => rfl, List.nodup_nil, fun c => by simp [scheduleAll, emptyQ, appeared]⟩
  | append_singleton L x ih =>
    have : scheduleAll (L ++ [x]) = schedule (scheduleAll L) x.1 x.2 := by
      simp [scheduleAll, List.foldl_append]
    rw [this]
    exact invQ_step L (scheduleAll L) x.1 x.2 ih

theorem frameGo_nodup (cbs : List Nat) :
    ∀ pend : Nat → Option Bool, cbs.Nodup →
      frameGo pend cbs = cbs.map (fun c => (c, pend c == some true, (none : Option Bool))) := by
  induction cbs with
  | nil => intro pend _; rfl
  | cons c rest ih =>
    intro pend hnd
    obtain ⟨hnotin, hrest⟩ := List.nodup_cons.mp hnd
    simp only [frameGo, List.map_cons]
    rw [updMap_same, ih _ hrest]
    congr 1
    apply List.map_congr_left
    intro c' hc'
    have hne : c' ≠ c := fun h => hnotin (h ▸ hc')
    rw [updMap_other _ _ _ _ hne]

end Sched

/-- C8.  All `scheduleContainerRefresh` calls of a burst (arbitrary
containers and force flags, all before the next animation frame) are
coalesced: at the frame, each scheduled container gets exactly one
`refreshChartContainer` execution; its force flag is the OR of all force
flags passed for that container (sticky `forceRebuild`); and the pending
queue entry of the container has been removed before its refresh runs. -/
theorem claim_C8 (L : List (Nat × Bool)) (c : Nat) :
    ((Sched.frame (Sched.scheduleAll L)).filter (fun e => e.1 == c)).length
        = (if Sched.appeared L c then 1 else 0)
    ∧ (∀ e ∈ Sched.frame (Sched.scheduleAll L), e.1 = c →
        e.2.1 = Sched.forcedOr L c ∧ e.2.2 = none) := by
  obtain ⟨h1, h2, h3⟩ := Sched.invQ_scheduleAll L
  have hframe : Sched.frame (Sched.scheduleAll L)
      = (Sched.scheduleAll L).callbacks.map
          (fun c' => (c', (Sched.scheduleAll L).pending c' == some true, (none : Option Bool))) :=
    Sched.frameGo_nodup _ _ h2
  constructor
  · rw [hframe, List.filter_map, List.length_map]
    have hcount :
        ((Sched.scheduleAll L).callbacks.filter fun c' => c' == c).length
          = (Sched.scheduleAll L).callbacks.count c := by
      rw [List.count, List.countP_eq_length_filter]
    have hfilter : ((Sched.scheduleAll L).callbacks.filter
          ((fun e : Nat × Bool × Option Bool => e.1 == c) ∘
            fun c' => (c', (Sched.scheduleAll L).pending c' == some true, (none : Option Bool))))
        = (Sched.scheduleAll L).callbacks.filter (fun c' => c' == c) := rfl
    rw [hfilter, hcount, List.count_eq_of_nodup h2]
    by_cases hc : Sched.appeared L c = true
    · rw [if_pos hc, if_pos ((h3 c).mpr hc)]
    · rw [if_neg hc, if_neg fun hmem => hc ((h3 c).mp hmem)]
  · intro e hmem he
    rw [hframe] at hmem
    rcases List.mem_map.mp hmem with ⟨c', hc', hec⟩
    have hc'c : c' = c := by rw [← hec] at he; exact he
    subst hc'c
    have happ : Sched.appeared L c' = true := (h3 c').mp hc'
    have hpend : (Sched.scheduleAll L).pending c' = some (Sched.forcedOr L c') := by
      rw [h1 c', if_pos happ]
    constructor
    · rw [← hec]
      simp only [hpend]
      cases hf : Sched.forcedOr L c' <;> simp
    · rw [← hec]

/-- Witness for `claim_C8` at a concrete burst: container 0 scheduled twice
(second time with force), container 1 scheduled once. -/
theorem claim_C8_witness :
    ((Sched.frame (Sched.scheduleAll [(0, false), (0, true), (1, false)])).filter
        (fun e => e.1 == 0)).length
      = (if Sched.appeared [(0, false), (0, true), (1, false)] 0 then 1 else 0)
    ∧ (∀ e ∈ Sched.frame (Sched.scheduleAll [(0, false), (0, true), (1, false)]), e.1 = 0 →
        e.2.1 = Sched.forcedOr [(0, false), (0, true), (1, false)] 0 ∧ e.2.2 = none) :=
  claim_C8 [(0, false), (0, true), (1, false)] 0

namespace Overview

  /-- a mapped container has a parseable config and a canvas -/
theorem destroy_instances (id : String) (hid : id ≠ "") (s : ChartState) (k : String) :
    (destroyChart id s).instances k = if k = id then none else s.instances k := by
  simp [destroyChart, hid, updMap]

theorem destroy_containers (id : String) (hid : id ≠ "") (s : ChartState) (k : String) :
    (destroyChart id s).containers k = if k = id then none else s.containers k := by
  simp [destroyChart, hid, updMap]

theorem destroy_sizeCache (id : String) (hid : id ≠ "") (s : ChartState) (k : String) :
    (destroyChart id s).sizeCache k = if k = id then none else s.sizeCache k := by
  simp [destroyChart, hid, updMap]

theorem destroy_dataset (id : String) (hid : id ≠ "") (s : ChartState) (c : Nat) :
    (destroyChart id s).dataset c =
      if s.containers id = some c ∧ s.dataset c = some id then none else s.dataset c := by
  simp [destroyChart, hid]

theorem destroy_nextInst (id : String) (s : ChartState) :
    (destroyChart id s).nextInst = s.nextInst := by
  by_cases hid : id = "" <;> simp [destroyChart, hid]

/-- The invariant ignores the error log. -/
theorem Inv.withErrLog {cenv : Nat → ContainerEnv} {s : ChartState} (h : Inv cenv s)
    (e : Nat) : Inv cenv { s with errLog := e } :=
  ⟨h.instDom, h.sizeDom, h.contDs, h.dsCont, h.instLt, h.contEnv⟩

/-- `destroyChart` preserves the cache invariant. -/
theorem inv_destroy (cenv : Nat → ContainerEnv) (id : String) (s : ChartState)
    (h : Inv cenv s) : Inv cenv (destroyChart id s) := by
  by_cases hid : id = ""
  · simpa [destroyChart, hid] using h
  · constructor
    · intro k
      rw [destroy_instances id hid, destroy_containers id hid]
      by_cases hk : k = id <;> simp [hk, h.instDom k]
    · intro k
      rw [destroy_sizeCache id hid, destroy_containers id hid]
      by_cases hk : k = id <;> simp [hk, h.sizeDom k]
    · intro k c hkc
      rw [destroy_containers id hid] at hkc
      rw [destroy_dataset id hid]
      by_cases hk : k = id
      · simp [hk] at hkc
      · rw [if_neg hk] at hkc
        have hds := h.contDs k c hkc
        rw [if_neg]
        · exact hds
        · rintro ⟨-, hc2⟩
          rw [hds] at hc2
          exact hk (by injection hc2)
    · intro c k hdc
      rw [destroy_dataset id hid] at hdc
      by_cases hcond : s.containers id = some c ∧ s.dataset c = some id
      · rw [if_pos hcond] at hdc
        exact absurd hdc (by simp)
      · rw [if_neg hcond] at hdc
        obtain ⟨hk0, hkc⟩ := h.dsCont c k hdc
        refine ⟨hk0, ?_⟩
        rw [destroy_containers id hid, if_neg]
        · exact hkc
        · intro hk
          exact hcond ⟨hk ▸ hkc, hk ▸ hdc⟩
    · intro k n hkn
      rw [destroy_nextInst]
      by_cases hk : k = id
      · rw [destroy_instances id hid, if_pos hk] at hkn
        exact absurd hkn (by simp)
      · rw [destroy_instances id hid, if_neg hk] at hkn
        exact h.instLt k n hkn
    · intro k c hkc
      rw [destroy_containers id hid] at hkc
      by_cases hk : k = id
      · rw [if_pos hk] at hkc
        exact absurd hkc (by simp)
      · rw [if_neg hk] at hkc
        exact h.contEnv k c hkc

/-- A parseable config means `parseJSON` succeeded without logging. -/
theorem parseJSON_of_configOk (a : Option String) (v : Bool)
    (h : (parseJSON a v).1.isSome = true) : parseJSON a v = (some (), false) := by
  match a with
  | none => simp [parseJSON] at h
  | some x =>
    by_cases hx : x = "" <;> cases v <;> simp_all [parseJSON]

/-- Under the config and canvas guards, `hydrateChart` is `hydrateCore` at
the computed chart id. -/
theorem hydrateChart_eq (cenv : Nat → ContainerEnv) (c : Nat) (ov : Option String)
    (ce : CallEnv) (s : ChartState)
    (hcfg : configOk (cenv c) = true) (hcanvas : (cenv c).hasCanvas = true) :
    hydrateChart cenv c ov ce s
      = hydrateCore c
          (jsOr (optStr ov) (jsOr (optStr (s.dataset c)) (jsOr (cenv c).canvasId ce.freshId)))
          ce s := by
  have hp := parseJSON_of_configOk (cenv c).configAttr (cenv c).configValid hcfg
  simp [hydrateChart, hp, hcanvas]

/-- With no parseable config, `hydrateChart` only logs (when the attribute
was present, non-empty and invalid) and leaves the state alone. -/
theorem hydrateChart_guard (cenv : Nat → ContainerEnv) (c : Nat) (ov : Option String)
    (ce : CallEnv) (s : ChartState) (hcfg : configOk (cenv c) = false) :
    hydrateChart cenv c ov ce s
      = if (parseJSON (cenv c).configAttr (cenv c).configValid).2
        then { s with errLog := s.errLog + 1 } else s := by
  have hnone : (parseJSON (cenv c).configAttr (cenv c).configValid).1 = none := by
    rcases hq : (parseJSON (cenv c).configAttr (cenv c).configValid).1 with _ | u
    · rfl
    · rw [configOk, hq] at hcfg
      simp at hcfg
  simp only [hydrateChart, hnone, Option.isNone_none, if_true]

/-- The chart id chosen by `hydrateChart` is nonempty and agrees with the
dataset entry of the container when one exists, provided the override is either
absent or the dataset value itself. -/
theorem chartId_spec (cenv : Nat → ContainerEnv) (s : ChartState) (h : Inv cenv s)
    (c : Nat) (ov : Option String) (cv f : String)
    (hov : ov = none ∨ ov = s.dataset c) (hfresh : f ≠ "") :
    jsOr (optStr ov) (jsOr (optStr (s.dataset c)) (jsOr cv f)) ≠ ""
    ∧ (s.dataset c = some (jsOr (optStr ov) (jsOr (optStr (s.dataset c)) (jsOr cv f)))
        ∨ s.dataset c = none) := by
  have inner : ∀ x : String, x = jsOr cv f → x ≠ "" := by
    intro x hx
    by_cases hcv : cv = "" <;> simp [jsOr, hcv, hx, hfresh]
  rcases hdc : s.dataset c with _ | d
  · have hov0 : ov = none := by
      rcases hov with hov | hov
      · exact hov
      · simp [hov, hdc]
    subst hov0
    refine ⟨?_, Or.inr rfl⟩
    by_cases hcv : cv = "" <;> simp [optStr, jsOr, hcv, hfresh]
  · have hd0 : d ≠ "" := (h.dsCont c d hdc).1
    rcases hov with hov | hov
    · subst hov
      refine ⟨?_, Or.inl ?_⟩ <;>
        simp [optStr, jsOr, hdc, hd0]
    · rw [hdc] at hov
      subst hov
      refine ⟨?_, Or.inl ?_⟩ <;>
        simp [optStr, jsOr, hdc, hd0]

/-- `hydrateCore` preserves the cache invariant. -/
theorem inv_hydrateCore (cenv : Nat → ContainerEnv) (c : Nat) (chartId : String)
    (ce : CallEnv) (s : ChartState) (h : Inv cenv s)
    (hcid : chartId ≠ "")
    (hdc : s.dataset c = some chartId ∨ s.dataset c = none)
    (hcfg : configOk (cenv c) = true)
    (hcanvas : (cenv c).hasCanvas = true) :
    Inv cenv (hydrateCore c chartId ce s) := by
  have h2 : Inv cenv (destroyChart chartId s) := inv_destroy cenv chartId s h
  have f1 : (destroyChart chartId s).containers chartId = none := by
    rw [destroy_containers chartId hcid, if_pos rfl]
  have f2 : (destroyChart chartId s).instances chartId = none := by
    rw [destroy_instances chartId hcid, if_pos rfl]
  have f4 : (destroyChart chartId s).dataset c = none := by
    rw [destroy_dataset chartId hcid]
    rcases hdc with hdc | hdc
    · rw [if_pos ⟨(h.dsCont c chartId hdc).2, hdc⟩]
    · rw [if_neg, hdc]
      rintro ⟨-, hx⟩
      rw [hdc] at hx
      cases hx
  set s2 := destroyChart chartId s with hs2
  unfold hydrateCore
  rw [← hs2]
  by_cases hctor : ce.ctorOk
  · rw [if_pos hctor]
    constructor
    · intro k
      by_cases hk : k = chartId <;> simp [updMap, hk, h2.instDom k]
    · intro k
      by_cases hk : k = chartId <;> simp [updMap, hk, h2.sizeDom k]
    · intro k c' hkc
      by_cases hk : k = chartId
      · subst hk
        rw [show ({ s2 with
              instances := updMap s2.instances k (some s2.nextInst)
              nextInst := s2.nextInst + 1
              dataset := fun c' => if c' = c then some k else s2.dataset c'
              containers := updMap s2.containers k (some c)
              sizeCache := updMap s2.sizeCache k (some ce.rect)
              observed := fun c' => if c' = c then true else s2.observed c' } : ChartState).containers
            = updMap s2.containers k (some c) from rfl] at hkc
        rw [updMap_same] at hkc
        injection hkc with hc'
        subst hc'
        simp
      · replace hkc : s2.containers k = some c' := by
          rw [show ∀ t : ChartState, t.containers = t.containers from fun _ => rfl] at hkc
          simpa [updMap, hk] using hkc
        have hds := h2.contDs k c' hkc
        by_cases hc' : c' = c
        · subst hc'
          rw [f4] at hds
          cases hds
        · simpa [hc'] using hds
    · intro c' k hdck
      by_cases hc' : c' = c
      · subst hc'
        replace hdck : some chartId = some k := by simpa using hdck
        injection hdck with hk
        subst hk
        exact ⟨hcid, by simp [updMap]⟩
      · replace hdck : s2.dataset c' = some k := by simpa [hc'] using hdck
        obtain ⟨hk0, hkc⟩ := h2.dsCont c' k hdck
        refine ⟨hk0, ?_⟩
        by_cases hk : k = chartId
        · subst hk
          rw [f1] at hkc
          cases hkc
        · simpa [updMap, hk] using hkc
    · intro k n hkn
      by_cases hk : k = chartId
      · replace hkn : some s2.nextInst = some n := by simpa [updMap, hk] using hkn
        injection hkn with hn
        subst hn
        simp
      · replace hkn : s2.instances k = some n := by simpa [updMap, hk] using hkn
        have := h2.instLt k n hkn
        simp only []
        omega
    · intro k c' hkc
      by_cases hk : k = chartId
      · replace hkc : some c = some c' := by simpa [updMap, hk] using hkc
        injection hkc with hc'
        subst hc'
        exact ⟨hcfg, hcanvas⟩
      · replace hkc : s2.containers k = some c' := by simpa [updMap, hk] using hkc
        exact h2.contEnv k c' hkc
  · rw [if_neg hctor]
    exact h2.withErrLog _

/-- `hydrateChart` preserves the cache invariant whenever the override is
absent or the dataset id of the container itself, and the fresh id is nonempty —
exactly the call shapes occurring in `overview.js`. -/
theorem inv_hydrate (cenv : Nat → ContainerEnv) (c : Nat) (ov : Option String)
    (ce : CallEnv) (s : ChartState) (h : Inv cenv s)
    (hov : ov = none ∨ ov = s.dataset c) (hfresh : ce.freshId ≠ "") :
    Inv cenv (hydrateChart cenv c ov ce s) := by
  by_cases hcfg : configOk (cenv c) = true
  · by_cases hcanvas : (cenv c).hasCanvas = true
    · rw [hydrateChart_eq cenv c ov ce s hcfg hcanvas]
      obtain ⟨hcid, hdc⟩ :=
        chartId_spec cenv s h c ov (cenv c).canvasId ce.freshId hov hfresh
      exact inv_hydrateCore cenv c _ ce s h hcid hdc hcfg hcanvas
    · have hp := parseJSON_of_configOk (cenv c).configAttr (cenv c).configValid hcfg
      have hcv : (cenv c).hasCanvas = false := by
        simpa using hcanvas
      have heq : hydrateChart cenv c ov ce s = s := by
        simp [hydrateChart, hp, hcv]
      rw [heq]
      exact h
  · rw [hydrateChart_guard cenv c ov ce s (by simpa using hcfg)]
    split
    · exact h.withErrLog _
    · exact h

/-- `refreshChartContainer` preserves the cache invariant. -/
theorem inv_refresh (cenv : Nat → ContainerEnv) (c : Nat) (force : Bool)
    (re : RefreshEnv) (s : ChartState) (h : Inv cenv s) (hfresh : re.freshId ≠ "") :
    Inv cenv (refreshChartContainer cenv c force re s) := by
  unfold refreshChartContainer
  rcases hdc : s.dataset c with _ | id
  · exact inv_hydrate cenv c none _ s h (Or.inl rfl) hfresh
  · dsimp only
    by_cases hid : id = ""
    · rw [if_pos hid]
      exact inv_hydrate cenv c none _ s h (Or.inl rfl) hfresh
    · rw [if_neg hid]
      rcases hinst : s.instances id with _ | n
      · exact inv_hydrate cenv c none _ s h (Or.inl rfl) hfresh
      · dsimp only
        have hs1 : Inv cenv { s with sizeCache := updMap s.sizeCache id (some re.rect) } := by
          constructor
          · exact h.instDom
          · intro k
            by_cases hk : k = id
            · subst hk
              have hc0 : (s.containers k).isSome = true := by
                rw [← h.instDom k, hinst]
                rfl
              simp [updMap, hc0]
            · simpa [updMap, hk] using h.sizeDom k
          · exact h.contDs
          · exact h.dsCont
          · exact h.instLt
          · exact h.contEnv
        have hds1 : ({ s with sizeCache := updMap s.sizeCache id (some re.rect) }
            : ChartState).dataset c = some id := hdc
        by_cases hforce : force = true
        · rw [hforce, if_pos rfl]
          exact inv_hydrate cenv c (some id) _ s h (Or.inr hdc.symm) hfresh
        · rw [if_neg hforce]
          split
          · exact inv_hydrate cenv c (some id) _ _ hs1 (Or.inr hds1.symm) hfresh
          · split
            · exact hs1
            · exact inv_hydrate cenv c (some id) _ _ (hs1.withErrLog _)
                (Or.inr hds1.symm) hfresh

/-- The empty caches satisfy the invariant. -/
theorem inv_init (cenv : Nat → ContainerEnv) : Inv cenv init := by
  constructor <;> intro a <;> intros <;> simp_all [init]

/-- Every well-formed operation preserves the invariant. -/
theorem inv_step (cenv : Nat → ContainerEnv) (s : ChartState) (op : Op)
    (h : Inv cenv s) (hwf : op.wf) : Inv cenv (step cenv s op) := by
  match op with
  | .hydrate c ce => exact inv_hydrate cenv c none ce s h (Or.inl rfl) hwf
  | .destroy id => exact inv_destroy cenv id s h
  | .refresh c f re => exact inv_refresh cenv c f re s h hwf

theorem inv_foldl (cenv : Nat → ContainerEnv) :
    ∀ (ops : List Op) (s : ChartState), Inv cenv s → (∀ op ∈ ops, op.wf) →
      Inv cenv (ops.foldl (step cenv) s) := by
  intro ops
  induction ops with
  | nil => intro s hs _; exact hs
  | cons op rest ih =>
    intro s hs hwf
    rw [List.foldl_cons]
    exact ih (step cenv s op)
      (inv_step cenv s op hs (hwf op (List.mem_cons_self op rest)))
      (fun o ho => hwf o (List.mem_cons_of_mem op ho))

/-- Every state reachable through hydrate/destroy/refresh operations
satisfies the cache invariant. -/
theorem inv_run (cenv : Nat → ContainerEnv) (ops : List Op)
    (hwf : ∀ op ∈ ops, op.wf) : Inv cenv (run cenv ops) :=
  inv_foldl cenv ops init (inv_init cenv) hwf

/-- Under the invariant, no cache entry lives under the empty id. -/
theorem Inv.empty_id {cenv : Nat → ContainerEnv} {s : ChartState} (h : Inv cenv s) :
    s.containers "" = none ∧ s.instances "" = none ∧ s.sizeCache "" = none := by
  have hc : s.containers "" = none := by
    rcases hc : s.containers "" with _ | c
    · rfl
    · have hds := h.contDs "" c hc
      have := (h.dsCont c "" hds).1
      exact absurd rfl this
  refine ⟨hc, ?_, ?_⟩
  · rcases hi : s.instances "" with _ | n
    · rfl
    · have := h.instDom ""
      rw [hc, hi] at this
      simp at this
  · rcases hi : s.sizeCache "" with _ | z
    · rfl
    · have := h.sizeDom ""
      rw [hc, hi] at this
      simp at this

end Overview

/-- C4 (counterexample).  For a container whose `data-chart-config` attribute
is present but empty, `hydrateChart` returns without creating a chart and
without touching the caches — but it logs nothing: the claimed parse-failure
log does not happen (the `!value` guard of `parseJSON` returns silently). -/
theorem claim_C4_counterexample :
    Overview.hydrateChart cenvEmptyCfg 0 none ceOk Overview.init = Overview.init
    ∧ (Overview.hydrateChart cenvEmptyCfg 0 none ceOk Overview.init).errLog = 0 :=
  ⟨rfl, rfl⟩

/-- C4 (amended).  For a container whose `data-chart-config` is absent or
empty, `hydrateChart` returns with the state — caches included — completely
unchanged and logs nothing; when the attribute is present, non-empty and not
valid JSON, `hydrateChart` logs the parse failure and returns with the caches
unchanged and no chart instance created (the state changes only by the log). -/
theorem claim_C4 (cenv : Nat → Overview.ContainerEnv) (c : Nat) (ov : Option String)
    (ce : Overview.CallEnv) (s : Overview.ChartState) :
    (((cenv c).configAttr = none ∨ (cenv c).configAttr = some "") →
      Overview.hydrateChart cenv c ov ce s = s)
    ∧ ((cenv c).configValid = false → ∀ v, (cenv c).configAttr = some v → v ≠ "" →
        Overview.hydrateChart cenv c ov ce s = { s with errLog := s.errLog + 1 }) := by
  constructor
  · rintro (ha | ha) <;> simp [Overview.hydrateChart, Overview.parseJSON, ha]
  · intro hv v ha hne
    simp [Overview.hydrateChart, Overview.parseJSON, ha, hne, hv]

/-- Witness for `claim_C4`: a present, non-empty, invalid config logs once
and otherwise leaves the empty state unchanged. -/
theorem claim_C4_witness :
    Overview.hydrateChart cenvBadCfg 0 none ceOk Overview.init
      = { Overview.init with errLog := Overview.init.errLog + 1 } :=
  (claim_C4 cenvBadCfg 0 none ceOk Overview.init).2 rfl "not json" rfl (by decide)

/-- C7.  For every state reachable by hydrate/destroy/refresh operations:
a successful `hydrateChart(container)` (config parses, canvas present,
constructor succeeds) leaves a key under which `chartInstances` holds the new
instance and `chartContainers` maps back to the container, with the container
recording the key in its dataset and the size cache holding the measured
rect; and `destroyChart(id)` removes the instance, the container mapping, the
size-cache entry, and — for the container that was mapped — the stored
dataset key. -/
theorem claim_C7 (cenv : Nat → Overview.ContainerEnv) (ops : List Overview.Op)
    (hwf : ∀ op ∈ ops, op.wf) (c : Nat) (ce : Overview.CallEnv) (id : String)
    (hfresh : ce.freshId ≠ "")
    (hcfg : Overview.configOk (cenv c) = true) (hcanvas : (cenv c).hasCanvas = true) :
    (ce.ctorOk = true →
      ∃ k, (Overview.hydrateChart cenv c none ce (Overview.run cenv ops)).instances k
            = some (Overview.run cenv ops).nextInst
        ∧ (Overview.hydrateChart cenv c none ce (Overview.run cenv ops)).containers k = some c
        ∧ (Overview.hydrateChart cenv c none ce (Overview.run cenv ops)).dataset c = some k
        ∧ (Overview.hydrateChart cenv c none ce (Overview.run cenv ops)).sizeCache k
            = some ce.rect)
    ∧ (Overview.destroyChart id (Overview.run cenv ops)).instances id = none
    ∧ (Overview.destroyChart id (Overview.run cenv ops)).containers id = none
    ∧ (Overview.destroyChart id (Overview.run cenv ops)).sizeCache id = none
    ∧ (∀ c', (Overview.run cenv ops).containers id = some c' →
        (Overview.destroyChart id (Overview.run cenv ops)).dataset c' = none) := by
  have hinv := Overview.inv_run cenv ops hwf
  constructor
  · intro hctor
    rw [Overview.hydrateChart_eq cenv c none ce (Overview.run cenv ops) hcfg hcanvas]
    obtain ⟨hcid, -⟩ := Overview.chartId_spec cenv (Overview.run cenv ops) hinv c none
      (cenv c).canvasId ce.freshId (Or.inl rfl) hfresh
    refine ⟨Overview.jsOr (Overview.optStr none)
        (Overview.jsOr (Overview.optStr ((Overview.run cenv ops).dataset c))
          (Overview.jsOr (cenv c).canvasId ce.freshId)), ?_, ?_, ?_, ?_⟩ <;>
      simp [Overview.hydrateCore, hctor, updMap, Overview.destroy_nextInst]
  · by_cases hid : id = ""
    · subst hid
      obtain ⟨hc0, hi0, hs0⟩ := hinv.empty_id
      refine ⟨?_, ?_, ?_, ?_⟩ <;> simp [Overview.destroyChart, hc0, hi0, hs0]
    · refine ⟨?_, ?_, ?_, ?_⟩
      · rw [Overview.destroy_instances id hid, if_pos rfl]
      · rw [Overview.destroy_containers id hid, if_pos rfl]
      · rw [Overview.destroy_sizeCache id hid, if_pos rfl]
      · intro c' hc'
        rw [Overview.destroy_dataset id hid,
          if_pos ⟨hc', hinv.contDs id c' hc'⟩]

/-- Witness for `claim_C7`: empty operation history, a fresh successful
hydration of container 0, and destruction of the canvas id. -/
theorem claim_C7_witness :
    (Overview.CallEnv.ctorOk ceOk = true →
      ∃ k, (Overview.hydrateChart cenvGoodCfg 0 none ceOk
              (Overview.run cenvGoodCfg [])).instances k
            = some (Overview.run cenvGoodCfg []).nextInst
        ∧ (Overview.hydrateChart cenvGoodCfg 0 none ceOk
            (Overview.run cenvGoodCfg [])).containers k = some 0
        ∧ (Overview.hydrateChart cenvGoodCfg 0 none ceOk
            (Overview.run cenvGoodCfg [])).dataset 0 = some k
        ∧ (Overview.hydrateChart cenvGoodCfg 0 none ceOk
            (Overview.run cenvGoodCfg [])).sizeCache k = some ceOk.rect)
    ∧ (Overview.destroyChart "chart-main" (Overview.run cenvGoodCfg [])).instances
        "chart-main" = none
    ∧ (Overview.destroyChart "chart-main" (Overview.run cenvGoodCfg [])).containers
        "chart-main" = none
    ∧ (Overview.destroyChart "chart-main" (Overview.run cenvGoodCfg [])).sizeCache
        "chart-main" = none
    ∧ (∀ c', (Overview.run cenvGoodCfg []).containers "chart-main" = some c' →
        (Overview.destroyChart "chart-main" (Overview.run cenvGoodCfg [])).dataset c'
          = none) :=
  claim_C7 cenvGoodCfg [] (by intro op hop; simp at hop) 0 ceOk "chart-main"
    (by decide) rfl rfl

/-- `a || b` keeps a non-empty (truthy) left operand. -/
theorem Overview.jsOr_ne (a b : String) (h : a ≠ "") : Overview.jsOr a b = a := by
  simp [Overview.jsOr, h]

/-- `refreshChartContainer` with `forceRebuild = false` on a container whose
dataset id owns a live instance: always write the current rect into the size
cache; rebuild on size drift; otherwise resize/update in place, rebuilding
(after logging) if the update throws. -/
theorem Overview.refresh_noforce (cenv : Nat → Overview.ContainerEnv) (c : Nat)
    (re : Overview.RefreshEnv) (s : Overview.ChartState) (id : String) (inst : Nat)
    (hdc : s.dataset c = some id) (hid : id ≠ "") (hinst : s.instances id = some inst) :
    Overview.refreshChartContainer cenv c false re s
      = if Overview.sizeChanged (s.sizeCache id) re.rect then
          Overview.hydrateChart cenv c (some id) ⟨re.rect, re.ctorOk, re.freshId⟩
            { s with sizeCache := updMap s.sizeCache id (some re.rect) }
        else if re.updateOk then
          { s with sizeCache := updMap s.sizeCache id (some re.rect) }
        else
          Overview.hydrateChart cenv c (some id) ⟨re.rect, re.ctorOk, re.freshId⟩
            { s with
              sizeCache := updMap s.sizeCache id (some re.rect)
              errLog := s.errLog + 1 } := by
  unfold Overview.refreshChartContainer
  rw [hdc]
  dsimp only
  rw [if_neg hid, hinst]
  dsimp only
  rw [if_neg (by decide : ¬((false : Bool) = true))]

/-- C9 (amended).  For every reachable state, container with a live chart
instance and a cached size, and refresh whose rebuild (if any) succeeds:
`refreshChartContainer` with `forceRebuild = false` destroys and re-hydrates
the chart — replacing the instance with a fresh one — iff the current width
or height drifts from the cache by more than 8 pixels or the in-place update
throws; otherwise it changes the state only by writing the current rect into
the size cache (in-place `resize`/`update("none")` on the existing
instance); and in all these cases the size cache ends at the current rect. -/
theorem claim_C9 (cenv : Nat → Overview.ContainerEnv) (ops : List Overview.Op)
    (hwf : ∀ op ∈ ops, op.wf) (c : Nat) (id : String) (inst : Nat)
    (prev : Overview.Size) (re : Overview.RefreshEnv)
    (hdc : (Overview.run cenv ops).dataset c = some id)
    (hinst : (Overview.run cenv ops).instances id = some inst)
    (hprev : (Overview.run cenv ops).sizeCache id = some prev)
    (hctor : re.ctorOk = true) :
    ((8 < (prev.width - re.rect.width).natAbs ∨ 8 < (prev.height - re.rect.height).natAbs
        ∨ re.updateOk = false) →
      (Overview.refreshChartContainer cenv c false re (Overview.run cenv ops)).instances id
          = some (Overview.run cenv ops).nextInst
      ∧ inst ≠ (Overview.run cenv ops).nextInst
      ∧ (Overview.refreshChartContainer cenv c false re (Overview.run cenv ops)).sizeCache id
          = some re.rect)
    ∧ (¬(8 < (prev.width - re.rect.width).natAbs ∨ 8 < (prev.height - re.rect.height).natAbs
          ∨ re.updateOk = false) →
        Overview.refreshChartContainer cenv c false re (Overview.run cenv ops)
          = { Overview.run cenv ops with
              sizeCache := updMap (Overview.run cenv ops).sizeCache id (some re.rect) }) := by
  have hinv := Overview.inv_run cenv ops hwf
  obtain ⟨hid, hcont⟩ := hinv.dsCont c id hdc
  obtain ⟨hcfg, hcanvas⟩ := hinv.contEnv id c hcont
  have hlt := hinv.instLt id inst hinst
  have hred := Overview.refresh_noforce cenv c re (Overview.run cenv ops) id inst hdc hid hinst
  rw [hprev] at hred
  have hrebuild : ∀ (sc : String → Option Overview.Size) (el : Nat),
      (Overview.hydrateChart cenv c (some id) ⟨re.rect, re.ctorOk, re.freshId⟩
          { Overview.run cenv ops with sizeCache := sc, errLog := el }).instances id
        = some (Overview.run cenv ops).nextInst
      ∧ (Overview.hydrateChart cenv c (some id) ⟨re.rect, re.ctorOk, re.freshId⟩
          { Overview.run cenv ops with sizeCache := sc, errLog := el }).sizeCache id
        = some re.rect := by
    intro sc el
    rw [Overview.hydrateChart_eq cenv c (some id) _ _ hcfg hcanvas]
    have hjs : Overview.jsOr (Overview.optStr (some id))
        (Overview.jsOr
          (Overview.optStr
            (({ Overview.run cenv ops with
                sizeCache := sc, errLog := el } : Overview.ChartState).dataset c))
          (Overview.jsOr (cenv c).canvasId re.freshId)) = id :=
      Overview.jsOr_ne id _ hid
    rw [hjs]
    constructor <;>
      simp [Overview.hydrateCore, hctor, updMap, Overview.destroy_nextInst]
  by_cases hchg : Overview.sizeChanged (some prev) re.rect = true
  · replace hchg : 8 < (prev.width - re.rect.width).natAbs
        ∨ 8 < (prev.height - re.rect.height).natAbs := by
      simpa [Overview.sizeChanged] using hchg
    rw [hred, if_pos (by simpa [Overview.sizeChanged] using hchg)]
    constructor
    · intro h9
      exact ⟨(hrebuild _ _).1, Nat.ne_of_lt hlt, (hrebuild _ _).2⟩
    · intro hn
      exact absurd (hchg.elim (fun h => Or.inl h) (fun h => Or.inr (Or.inl h))) hn
  · have hchg' : ¬(8 < (prev.width - re.rect.width).natAbs
        ∨ 8 < (prev.height - re.rect.height).natAbs) := by
      intro hx
      exact hchg (by simpa [Overview.sizeChanged] using hx)
    rw [hred, if_neg hchg]
    by_cases hupd : re.updateOk = true
    · rw [if_pos hupd]
      constructor
      · intro hreb
        rcases hreb with h1 | h1 | h1
        · exact absurd (Or.inl h1) hchg'
        · exact absurd (Or.inr h1) hchg'
        · rw [hupd] at h1; cases h1
      · intro h9
        rfl
    · rw [if_neg hupd]
      constructor
      · intro h9
        exact ⟨(hrebuild _ _).1, Nat.ne_of_lt hlt, (hrebuild _ _).2⟩
      · intro hn
        exact absurd (Or.inr (Or.inr (by simpa using hupd))) hn

/-- C9 (counterexample).  On a live chart whose width drifted by 10 pixels,
a refresh whose rebuild constructor throws does NOT leave the size cache at
the current dimensions: the internal `destroyChart` of the rebuild deletes the
entry (and the instance), refuting the claim that in all cases the size
cache is updated to the current dimensions. -/
theorem claim_C9_counterexample :
    runOne.sizeCache "chart-main" = some { width := 100, height := 50 }
    ∧ runOne.instances "chart-main" = some 0
    ∧ (Overview.refreshChartContainer cenvGoodCfg 0 false reCtorFail runOne).sizeCache
        "chart-main" = none
    ∧ (Overview.refreshChartContainer cenvGoodCfg 0 false reCtorFail runOne).instances
        "chart-main" = none := by
  refine ⟨?_, ?_, ?_, ?_⟩ <;> decide

/-- Witness for `claim_C9` at the concrete reachable state `runOne` with a
10-pixel width drift and a succeeding rebuild. -/
theorem claim_C9_witness :
    ((8 < (({ width := 100, height := 50 } : Overview.Size).width
            - reResize.rect.width).natAbs
      ∨ 8 < (({ width := 100, height := 50 } : Overview.Size).height
            - reResize.rect.height).natAbs
      ∨ reResize.updateOk = false) →
      (Overview.refreshChartContainer cenvGoodCfg 0 false reResize
          (Overview.run cenvGoodCfg [Overview.Op.hydrate 0 ceOk])).instances "chart-main"
        = some (Overview.run cenvGoodCfg [Overview.Op.hydrate 0 ceOk]).nextInst
      ∧ 0 ≠ (Overview.run cenvGoodCfg [Overview.Op.hydrate 0 ceOk]).nextInst
      ∧ (Overview.refreshChartContainer cenvGoodCfg 0 false reResize
          (Overview.run cenvGoodCfg [Overview.Op.hydrate 0 ceOk])).sizeCache "chart-main"
        = some reResize.rect)
    ∧ (¬(8 < (({ width := 100, height := 50 } : Overview.Size).width
            - reResize.rect.width).natAbs
        ∨ 8 < (({ width := 100, height := 50 } : Overview.Size).height
            - reResize.rect.height).natAbs
        ∨ reResize.updateOk = false) →
        Overview.refreshChartContainer cenvGoodCfg 0 false reResize
            (Overview.run cenvGoodCfg [Overview.Op.hydrate 0 ceOk])
          = { Overview.run cenvGoodCfg [Overview.Op.hydrate 0 ceOk] with
              sizeCache := updMap
                (Overview.run cenvGoodCfg [Overview.Op.hydrate 0 ceOk]).sizeCache
                "chart-main" (some reResize.rect) }) :=
  claim_C9 cenvGoodCfg [Overview.Op.hydrate 0 ceOk]
    (by
      intro op hop
      rw [List.mem_singleton] at hop
      subst hop
      show ceOk.freshId ≠ ""
      decide)
    0 "chart-main" 0 { width := 100, height := 50 } reResize
    (by decide) (by decide) (by decide) rfl

end EnglishCenter
